import Mathlib

/-!
Verification of the data-quality gate of the customer-360 platform:
`data_quality/validators/data_checks.py`, `schema_validator.py` and
`quality_reporter.py`, shallowly embedded in Lean 4.

Tables are modelled column-oriented: a list of column names plus a list of
rows, each row a list of optional rational cells (`none` models a null/NaN
cell).  Percentages are exact rationals; Python's `round(x, 2)` is modelled
by `pyRound2` (round half to even at the second decimal).  Clock readings
(`datetime.now`) are elided from accumulated results and threaded as an
explicit parameter where a check's verdict depends on them.
-/

namespace C360

/-- Check status as used throughout the quality gate. -/
inductive Status where
  | PASS
  | WARN
  | FAIL
deriving DecidableEq

/-- The worst of two statuses under the total order FAIL > WARN > PASS. -/
def Status.worst : Status → Status → Status
  | .FAIL, _ => .FAIL
  | _, .FAIL => .FAIL
  | .WARN, _ => .WARN
  | _, .WARN => .WARN
  | _, _ => .PASS

theorem Status.worst_eq_FAIL (a b : Status) :
    a.worst b = .FAIL ↔ a = .FAIL ∨ b = .FAIL := by
  cases a <;> cases b <;> decide

theorem Status.worst_eq_WARN (a b : Status) :
    a.worst b = .WARN ↔ (a ≠ .FAIL ∧ b ≠ .FAIL) ∧ (a = .WARN ∨ b = .WARN) := by
  cases a <;> cases b <;> decide

theorem Status.eq_PASS_of_ne (s : Status) (h1 : s ≠ .FAIL) (h2 : s ≠ .WARN) :
    s = .PASS := by
  cases s <;> simp_all

theorem foldl_worst_eq_FAIL (l : List Status) (init : Status) :
    l.foldl Status.worst init = .FAIL ↔ init = .FAIL ∨ .FAIL ∈ l := by
  induction l generalizing init with
  | nil => simp
  | cons x xs ih =>
    simp only [List.foldl_cons, ih, List.mem_cons, Status.worst_eq_FAIL]
    constructor
    · rintro (⟨h | h⟩ | h)
      · exact Or.inl h
      · exact Or.inr (Or.inl h.symm)
      · exact Or.inr (Or.inr h)
    · rintro (h | h | h)
      · exact Or.inl (Or.inl h)
      · exact Or.inl (Or.inr h.symm)
      · exact Or.inr h

theorem foldl_worst_eq_WARN (l : List Status) (init : Status) :
    l.foldl Status.worst init = .WARN ↔
      ¬(init = .FAIL ∨ .FAIL ∈ l) ∧ (init = .WARN ∨ .WARN ∈ l) := by
  induction l generalizing init with
  | nil => cases init <;> simp
  | cons x xs ih =>
    simp only [List.foldl_cons, ih, List.mem_cons, Status.worst_eq_FAIL,
      Status.worst_eq_WARN]
    cases init <;> cases x <;> simp

theorem foldl_worst_eq_PASS (l : List Status) (init : Status) :
    l.foldl Status.worst init = .PASS ↔
      ¬(init = .FAIL ∨ .FAIL ∈ l) ∧ ¬(init = .WARN ∨ .WARN ∈ l) := by
  have hF := foldl_worst_eq_FAIL l init
  have hW := foldl_worst_eq_WARN l init
  cases h : l.foldl Status.worst init <;> simp_all

/-- Python's `round(x, 2)`: round half to even at the second decimal. -/
def roundHalfEven (x : ℚ) : ℤ :=
  let f := ⌊x⌋
  let frac := x - f
  if frac < 1/2 then f
  else if 1/2 < frac then f + 1
  else if f % 2 = 0 then f else f + 1

def pyRound2 (x : ℚ) : ℚ := (roundHalfEven (x * 100) : ℚ) / 100

/-- Quality thresholds handed to `DataQualityChecker.__init__`
(`pipeline_config.yaml` values or the constructor defaults). -/
structure Thresholds where
  null_percentage_max : ℚ
  duplicate_percentage_max : ℚ
  min_row_count : ℤ
  freshness_hours_max : ℚ

/-- The constructor defaults of `DataQualityChecker`. -/
def defaultThresholds : Thresholds :=
  { null_percentage_max := 5, duplicate_percentage_max := 1,
    min_row_count := 100, freshness_hours_max := 6 }

/-- A pandas DataFrame, column-oriented: named columns and a list of rows,
each row a list of optional cells aligned with `columns` (`none` = null). -/
structure DataFrame where
  columns : List String
  rows : List (List (Option ℚ))

def DataFrame.nrows (df : DataFrame) : Nat := df.rows.length

/-- `df[col]` as a list of optional cells; `[]` when the column is absent. -/
def DataFrame.colValues (df : DataFrame) (col : String) : List (Option ℚ) :=
  match df.columns.findIdx? (· == col) with
  | some i => df.rows.map (fun r => r.getD i none)
  | none => []

/-- `df[col].isnull().sum()`. -/
def DataFrame.nullCount (df : DataFrame) (col : String) : Nat :=
  (df.colValues col).countP (fun v => v.isNone)

/-- The per-column null percentage computed by `check_nulls`:
`(null_count / len(df)) * 100 if len(df) > 0 else 0`. -/
def nullPct (df : DataFrame) (col : String) : ℚ :=
  if 0 < df.nrows then (df.nullCount col : ℚ) / (df.nrows : ℚ) * 100 else 0

/-- Per-column entry of the null report when the column is present. -/
structure NullColCounts where
  null_count : Nat
  null_percentage : ℚ
  threshold : ℚ
  status : Status

/-- One entry of `null_report` (missing column, or counted). -/
inductive NullColReport where
  | missing (status : Status) (reason : String)
  | counted (c : NullColCounts)

/-- Result dict of `check_duplicates`. -/
structure DupResult where
  total_records : Nat
  duplicate_count : Nat
  duplicate_percentage : ℚ
  threshold : ℚ
  key_columns : List String
  sample_duplicates : Option (List (List (String × Option ℚ)))

/-- A `{"min": ..., "max": ...}` range rule (either bound optional). -/
structure RangeRule where
  min : Option ℚ
  max : Option ℚ

/-- Per-column entry of the range report when the column is present. -/
structure RangeColCounts where
  expected_range : RangeRule
  violations : Nat
  violation_percentage : ℚ
  actual_min : Option ℚ
  actual_max : Option ℚ
  status : Status

/-- One entry of `range_report` (missing column, or counted). -/
inductive RangeColReport where
  | missing (status : Status) (reason : String)
  | counted (c : RangeColCounts)

/-- Result dict of `check_row_count`. -/
structure RowCountResult where
  actual_count : Nat
  expected_min : ℤ
  expected_max : Option ℤ
  previous_count : Option ℤ
  issues : List String

/-- Result dict of `check_freshness` on the non-exceptional path. -/
structure FreshResult where
  latest_timestamp : Option ℚ
  hours_since_latest : Option ℚ
  threshold_hours : ℚ

/-- Result dict of `check_referential_integrity` when the column exists. -/
structure RefResult where
  column : String
  total_unique_values : Nat
  reference_set_size : Nat
  orphaned_count : Nat
  sample_orphans : List ℚ

/-- The `details` payload carried by an accumulated result or a return
value; one constructor per dict shape occurring in `data_checks.py`. -/
inductive Details where
  | nulls (columns_checked : Nat) (column_results : List (String × NullColReport))
  | nullsReport (column_results : List (String × NullColReport))
  | dups (r : DupResult)
  | ranges (columns_checked : Nat) (column_results : List (String × RangeColReport))
  | rangesReport (column_results : List (String × RangeColReport))
  | rowCount (r : RowCountResult)
  | freshMissing (status : Status) (reason : String)
  | fresh (r : FreshResult)
  | freshError (error : String)
  | refMissing (status : Status) (reason : String)
  | ref (r : RefResult)

/-- An accumulated check result (`_add_result`); the wall-clock timestamp
field is elided, it carries no information the checks depend on. -/
structure CheckResult where
  check_name : String
  status : Status
  details : Details

/-- Value returned by a check method: either the usual
`{"status": ..., "details": ...}` dict, or — in the missing-column early
returns of `check_freshness` / `check_referential_integrity` — the bare
`{"status": ..., "reason": ...}` result dict itself. -/
inductive CheckReturn where
  | withDetails (status : Status) (details : Details)
  | bare (status : Status) (reason : String)

def CheckReturn.status : CheckReturn → Status
  | .withDetails s _ => s
  | .bare s _ => s

/-- Whether a returned value has the `{status, details}` shape. -/
def CheckReturn.hasDetails : CheckReturn → Bool
  | .withDetails _ _ => true
  | .bare _ _ => false

/-- Loop body of `check_nulls`: one required column, threading the
`(null_report, overall_status)` accumulator. -/
def nullsStep (T : Thresholds) (df : DataFrame)
    (acc : List (String × NullColReport) × Status) (col : String) :
    List (String × NullColReport) × Status :=
  if col ∈ df.columns then
    let null_count := df.nullCount col
    let null_pct := nullPct df col
    let status : Status :=
      if null_pct > T.null_percentage_max then .FAIL
      else if null_pct > 0 then .WARN
      else .PASS
    let overall : Status :=
      if null_pct > T.null_percentage_max then .FAIL
      else if null_pct > 0 then (if acc.2 = .PASS then .WARN else acc.2)
      else acc.2
    (acc.1 ++ [(col, .counted
        { null_count := null_count, null_percentage := pyRound2 null_pct,
          threshold := T.null_percentage_max, status := status })], overall)
  else
    (acc.1 ++ [(col, .missing .FAIL "Column missing")], .FAIL)

/-- `DataQualityChecker.check_nulls`: threads the accumulated result list
explicitly and returns it together with the returned dict. -/
def check_nulls (T : Thresholds) (st : List CheckResult) (df : DataFrame)
    (required_columns : List String) : List CheckResult × CheckReturn :=
  let res := required_columns.foldl (nullsStep T df) ([], .PASS)
  (st ++ [{ check_name := "null_check", status := res.2,
            details := .nulls required_columns.length res.1 }],
   .withDetails res.2 (.nullsReport res.1))

/-- The per-column status `check_nulls` assigns to one required column. -/
def colNullStatus (T : Thresholds) (df : DataFrame) (col : String) : Status :=
  if col ∈ df.columns then
    if nullPct df col > T.null_percentage_max then .FAIL
    else if nullPct df col > 0 then .WARN
    else .PASS
  else .FAIL

theorem nullsStep_snd (T : Thresholds) (df : DataFrame)
    (acc : List (String × NullColReport) × Status) (col : String) :
    (nullsStep T df acc col).2 = acc.2.worst (colNullStatus T df col) := by
  unfold nullsStep colNullStatus
  by_cases hmem : col ∈ df.columns
  · simp only [hmem, if_true]
    by_cases h1 : nullPct df col > T.null_percentage_max
    · simp only [h1, if_true]
      cases acc.2 <;> rfl
    · simp only [h1, if_false]
      by_cases h2 : nullPct df col > 0
      · simp only [h2, if_true]
        cases acc.2 <;> rfl
      · simp only [h2, if_false]
        cases acc.2 <;> rfl
  · simp only [hmem, if_false]
    cases acc.2 <;> rfl

theorem foldl_nullsStep_snd (T : Thresholds) (df : DataFrame)
    (l : List String) (acc : List (String × NullColReport) × Status) :
    (l.foldl (nullsStep T df) acc).2 =
      (l.map (colNullStatus T df)).foldl Status.worst acc.2 := by
  induction l generalizing acc with
  | nil => rfl
  | cons x xs ih =>
    simp only [List.foldl_cons, List.map_cons, ih, nullsStep_snd]

theorem colNullStatus_eq_FAIL (T : Thresholds) (df : DataFrame) (col : String) :
    colNullStatus T df col = .FAIL ↔
      col ∉ df.columns ∨ nullPct df col > T.null_percentage_max := by
  unfold colNullStatus
  split_ifs with hm h1 h2
  · simp [h1]
  · simp [hm, h1]
  · simp [hm, h1]
  · simp [hm]

theorem colNullStatus_eq_WARN (T : Thresholds) (df : DataFrame) (col : String) :
    colNullStatus T df col = .WARN ↔
      col ∈ df.columns ∧ 0 < nullPct df col ∧
        nullPct df col ≤ T.null_percentage_max := by
  unfold colNullStatus
  split_ifs with hm h1 h2
  · constructor
    · intro h; exact absurd h (by decide)
    · rintro ⟨-, -, h3⟩; exact absurd h1 (not_lt.mpr h3)
  · simp [hm, h2, not_lt.mp h1]
  · simp [hm, h2]
  · simp [hm]

/-- C1: `check_nulls` returns overall status FAIL iff some required column
is absent from the table or has null percentage above the threshold; WARN
iff no column fails but some present required column has null percentage in
(0, threshold]; PASS otherwise; and the overall status is the worst
per-column status under FAIL > WARN > PASS. -/
theorem C1_check_nulls_status (T : Thresholds) (st : List CheckResult)
    (df : DataFrame) (required_columns : List String) :
    (check_nulls T st df required_columns).2.status =
        (required_columns.map (colNullStatus T df)).foldl Status.worst .PASS
    ∧ ((check_nulls T st df required_columns).2.status = .FAIL ↔
        ∃ c ∈ required_columns,
          c ∉ df.columns ∨ nullPct df c > T.null_percentage_max)
    ∧ ((check_nulls T st df required_columns).2.status = .WARN ↔
        (¬ ∃ c ∈ required_columns,
            c ∉ df.columns ∨ nullPct df c > T.null_percentage_max)
        ∧ ∃ c ∈ required_columns, c ∈ df.columns ∧ 0 < nullPct df c ∧
            nullPct df c ≤ T.null_percentage_max)
    ∧ ((check_nulls T st df required_columns).2.status = .PASS ↔
        (¬ ∃ c ∈ required_columns,
            c ∉ df.columns ∨ nullPct df c > T.null_percentage_max)
        ∧ ¬ ∃ c ∈ required_columns, c ∈ df.columns ∧ 0 < nullPct df c ∧
            nullPct df c ≤ T.null_percentage_max) := by
  have hst : (check_nulls T st df required_columns).2.status =
      (required_columns.map (colNullStatus T df)).foldl Status.worst .PASS := by
    rw [show (check_nulls T st df required_columns).2.status =
        (required_columns.foldl (nullsStep T df) ([], Status.PASS)).2 from rfl,
      foldl_nullsStep_snd]
  refine ⟨hst, ?_, ?_, ?_⟩
  · rw [hst, foldl_worst_eq_FAIL]
    simp [colNullStatus_eq_FAIL]
  · rw [hst, foldl_worst_eq_WARN]
    simp [colNullStatus_eq_FAIL, colNullStatus_eq_WARN]
  · rw [hst, foldl_worst_eq_PASS]
    simp [colNullStatus_eq_FAIL, colNullStatus_eq_WARN]

/-- The dict returned by `DataQualityChecker.get_summary`. -/
structure Summary where
  overallStatus : Status
  totalChecks : Nat
  passed : Nat
  warnings : Nat
  failed : Nat
  summary : String
  checks : List CheckResult

/-- `DataQualityChecker.get_summary`, a pure projection of the accumulated
result list. -/
def get_summary (results : List CheckResult) : Summary :=
  let statuses := results.map (fun r => r.status)
  let overall : Status :=
    if .FAIL ∈ statuses then .FAIL
    else if .WARN ∈ statuses then .WARN
    else .PASS
  let p := statuses.count .PASS
  let n := statuses.length
  { overallStatus := overall,
    totalChecks := results.length,
    passed := statuses.count .PASS,
    warnings := statuses.count .WARN,
    failed := statuses.count .FAIL,
    summary := s!"{p}/{n} checks passed",
    checks := results }

theorem ifChain_eq_foldl_worst (l : List Status) :
    (if .FAIL ∈ l then Status.FAIL else if .WARN ∈ l then .WARN else .PASS)
      = l.foldl Status.worst .PASS := by
  by_cases hF : Status.FAIL ∈ l
  · simp [hF, (foldl_worst_eq_FAIL l .PASS).mpr (Or.inr hF)]
  · by_cases hW : Status.WARN ∈ l
    · simp [hF, hW, (foldl_worst_eq_WARN l .PASS).mpr ⟨by simp [hF], Or.inr hW⟩]
    · simp [hF, hW, (foldl_worst_eq_PASS l .PASS).mpr ⟨by simp [hF], by simp [hW]⟩]

theorem count_status_map (results : List CheckResult) (s : Status) :
    (results.map (fun r => r.status)).count s =
      results.countP (fun r => r.status == s) := by
  induction results with
  | nil => rfl
  | cons x xs ih => simp [List.count_cons, List.countP_cons, ih]

/-- C2: `get_summary` returns the worst accumulated status (FAIL if any
result failed, else WARN if any warned, else PASS — the maximum under
FAIL > WARN > PASS), `totalChecks` equal to the number of accumulated
results, and `passed`/`warnings`/`failed` equal to the per-status counts. -/
theorem C2_get_summary (results : List CheckResult) :
    (get_summary results).overallStatus =
        (results.map (fun r => r.status)).foldl Status.worst .PASS
    ∧ ((get_summary results).overallStatus = .FAIL ↔
        ∃ r ∈ results, r.status = .FAIL)
    ∧ ((get_summary results).overallStatus = .WARN ↔
        (¬ ∃ r ∈ results, r.status = .FAIL) ∧ ∃ r ∈ results, r.status = .WARN)
    ∧ ((get_summary results).overallStatus = .PASS ↔
        (¬ ∃ r ∈ results, r.status = .FAIL) ∧ ¬ ∃ r ∈ results, r.status = .WARN)
    ∧ (get_summary results).totalChecks = results.length
    ∧ (get_summary results).passed = results.countP (fun r => r.status == .PASS)
    ∧ (get_summary results).warnings = results.countP (fun r => r.status == .WARN)
    ∧ (get_summary results).failed = results.countP (fun r => r.status == .FAIL) := by
  have h0 : (get_summary results).overallStatus =
      (if .FAIL ∈ results.map (fun r => r.status) then Status.FAIL
       else if .WARN ∈ results.map (fun r => r.status) then .WARN
       else .PASS) := rfl
  refine ⟨?_, ?_, ?_, ?_, rfl, ?_, ?_, ?_⟩
  · rw [h0, ifChain_eq_foldl_worst]
  · rw [h0, ifChain_eq_foldl_worst, foldl_worst_eq_FAIL]; simp
  · rw [h0, ifChain_eq_foldl_worst, foldl_worst_eq_WARN]; simp
  · rw [h0, ifChain_eq_foldl_worst, foldl_worst_eq_PASS]; simp
  · exact count_status_map results .PASS
  · exact count_status_map results .WARN
  · exact count_status_map results .FAIL

/-- The `schema_results` dict as read by the reporter: only its `status`
key matters (`none` models a dict without the key, read with default
PASS). -/
structure SchemaResults where
  status : Option Status

/-- The `quality_results` dict as read by the reporter: only its
`overallStatus` key matters. -/
structure QualityResults where
  overallStatus : Option Status

/-- `QualityReporter._determine_overall_status`; an absent (falsy) argument
contributes no status to the aggregate. -/
def determine_overall_status (schema_results : Option SchemaResults)
    (quality_results : Option QualityResults) : Status :=
  let statuses : List Status :=
    (match schema_results with
     | some sr => [sr.status.getD .PASS]
     | none => []) ++
    (match quality_results with
     | some qr => [qr.overallStatus.getD .PASS]
     | none => [])
  if .FAIL ∈ statuses then .FAIL
  else if .WARN ∈ statuses then .WARN
  else .PASS

/-- The report dict built by `QualityReporter.generate_report`. -/
structure QualityReport where
  report_id : String
  entity : String
  process_date : String
  generated_at : String
  schema_validation : Option SchemaResults
  data_quality : Option QualityResults
  overall_status : Status

/-- `QualityReporter.generate_report`; `timeStr` and `genAt` thread the
wall-clock readings used only inside `report_id` and `generated_at`. -/
def generate_report (entity : String) (schema_results : Option SchemaResults)
    (quality_results : Option QualityResults) (process_date : String)
    (timeStr genAt : String) : QualityReport :=
  { report_id := entity ++ "-" ++ process_date ++ "-" ++ timeStr,
    entity := entity,
    process_date := process_date,
    generated_at := genAt,
    schema_validation := schema_results,
    data_quality := quality_results,
    overall_status := determine_overall_status schema_results quality_results }

theorem Status.worst_PASS_left (a : Status) : Status.PASS.worst a = a := by
  cases a <;> rfl

theorem Status.worst_PASS_right (a : Status) : a.worst .PASS = a := by
  cases a <;> rfl

theorem ifChain_single (a : Status) :
    (if .FAIL ∈ [a] then Status.FAIL
     else if .WARN ∈ [a] then .WARN else .PASS) = a := by
  cases a <;> decide

theorem ifChain_pair (a b : Status) :
    (if .FAIL ∈ [a, b] then Status.FAIL
     else if .WARN ∈ [a, b] then .WARN else .PASS) = a.worst b := by
  cases a <;> cases b <;> decide

theorem determine_eq_worst (s : Option SchemaResults)
    (q : Option QualityResults) :
    determine_overall_status s q =
      Status.worst ((s.map (fun sr => sr.status.getD .PASS)).getD .PASS)
        ((q.map (fun qr => qr.overallStatus.getD .PASS)).getD .PASS) := by
  rcases s with _ | sr <;> rcases q with _ | qr <;>
    simp only [determine_overall_status, Option.map_none', Option.map_some',
      Option.getD_none, Option.getD_some, List.nil_append, List.append_nil,
      List.singleton_append]
  · rfl
  · rw [ifChain_single, Status.worst_PASS_left]
  · rw [ifChain_single, Status.worst_PASS_right]
  · rw [ifChain_pair]

/-- C3: `generate_report` sets `overall_status` to the worst, under
FAIL > WARN > PASS, of the schema result status (PASS when absent) and the
quality result overallStatus (PASS when absent); with both absent it is
PASS. -/
theorem C3_generate_report_overall (entity process_date timeStr genAt : String)
    (schema_results : Option SchemaResults)
    (quality_results : Option QualityResults) :
    ((generate_report entity schema_results quality_results process_date
        timeStr genAt).overall_status =
      Status.worst
        ((schema_results.map (fun sr => sr.status.getD .PASS)).getD .PASS)
        ((quality_results.map (fun qr => qr.overallStatus.getD .PASS)).getD
          .PASS))
    ∧ (generate_report entity none none process_date timeStr
        genAt).overall_status = .PASS :=
  ⟨determine_eq_worst schema_results quality_results, rfl⟩

/-- A JSON record: an ordered mapping from field name to value (values
kept abstract as strings — the checks never inspect them). -/
abbrev Record := List (String × String)

/-- One entry of `error_details` collected by `validate_batch`. -/
structure ErrorDetail where
  record_index : Nat
  errors : List String
  record_sample : List (String × String)

/-- The summary dict returned by `validate_batch`. -/
structure BatchSummary where
  entity : String
  total_records : Nat
  valid_records : Nat
  invalid_records : Nat
  validity_percentage : ℚ
  status : Status
  error_samples : List ErrorDetail

/-- `SchemaValidator.validate_record`, parameterized by the loaded
validators: `validators entity` is that entity's `iter_errors` (the error
strings the Draft7 validator yields for a record), `none` when no schema
was loaded for the entity. -/
def validate_record (validators : String → Option (Record → List String))
    (record : Record) (entity : String) : Bool × List String :=
  match validators entity with
  | none => (false, ["No schema found for entity: " ++ entity])
  | some iter_errors =>
    let errors := iter_errors record
    (errors.length == 0, errors)

/-- Loop body of `validate_batch`, threading
`(valid_count, invalid_count, error_details)` over an enumerated record. -/
def batchStep (validators : String → Option (Record → List String))
    (entity : String) (acc : Nat × Nat × List ErrorDetail)
    (p : Nat × Record) : Nat × Nat × List ErrorDetail :=
  if (validate_record validators p.2 entity).1 then
    (acc.1 + 1, acc.2.1, acc.2.2)
  else
    (acc.1, acc.2.1 + 1,
      if acc.2.2.length < 100 then
        acc.2.2 ++ [{ record_index := p.1,
                      errors := (validate_record validators p.2 entity).2,
                      record_sample := p.2.take 5 }]
      else acc.2.2)

/-- `SchemaValidator.validate_batch`. -/
def validate_batch (validators : String → Option (Record → List String))
    (records : List Record) (entity : String) : BatchSummary :=
  let total := records.length
  let res := records.enum.foldl (batchStep validators entity) (0, 0, [])
  { entity := entity,
    total_records := total,
    valid_records := res.1,
    invalid_records := res.2.1,
    validity_percentage := pyRound2 ((res.1 : ℚ) / ((max total 1 : Nat) : ℚ) * 100),
    status := if res.2.1 == 0 then .PASS else .FAIL,
    error_samples := res.2.2.take 10 }

theorem foldl_batchStep_counts
    (validators : String → Option (Record → List String)) (entity : String)
    (l : List Record) (n : Nat) (acc : Nat × Nat × List ErrorDetail) :
    ((l.enumFrom n).foldl (batchStep validators entity) acc).1 =
        acc.1 + l.countP (fun r => (validate_record validators r entity).1)
    ∧ ((l.enumFrom n).foldl (batchStep validators entity) acc).2.1 =
        acc.2.1 + l.countP (fun r => !(validate_record validators r entity).1) := by
  induction l generalizing n acc with
  | nil => simp
  | cons x xs ih =>
    have hstep : (x :: xs).enumFrom n = (n, x) :: xs.enumFrom (n + 1) := rfl
    rw [hstep]
    simp only [List.foldl_cons, List.countP_cons]
    by_cases h : (validate_record validators x entity).1 = true
    · have hb : batchStep validators entity acc (n, x) =
          (acc.1 + 1, acc.2.1, acc.2.2) := by
        simp [batchStep, h]
      rw [hb]
      rcases ih (n + 1) (acc.1 + 1, acc.2.1, acc.2.2) with ⟨h1, h2⟩
      refine ⟨?_, ?_⟩
      · rw [h1]; simp [h]; omega
      · rw [h2]; simp [h]
    · have hb : batchStep validators entity acc (n, x) =
          (acc.1, acc.2.1 + 1,
            if acc.2.2.length < 100 then
              acc.2.2 ++ [{ record_index := n,
                            errors := (validate_record validators x entity).2,
                            record_sample := x.take 5 }]
            else acc.2.2) := by
        simp [batchStep, h]
      rw [hb]
      rcases ih (n + 1) _ with ⟨h1, h2⟩
      refine ⟨?_, ?_⟩
      · rw [h1]; simp [h]
      · rw [h2]; simp [h]; omega

/-- C4 (amended): `validate_batch` status is FAIL iff some record is
invalid per `validate_record` (never WARN); counts are the number of valid
and invalid records; `validity_percentage` is
`valid_count / max(total, 1) * 100` rounded to two decimal places, and an
empty batch yields 0 without a division error. -/
theorem C4_validate_batch_amended
    (validators : String → Option (Record → List String))
    (records : List Record) (entity : String) :
    ((validate_batch validators records entity).status = .FAIL ↔
        ∃ r ∈ records, (validate_record validators r entity).1 = false)
    ∧ (validate_batch validators records entity).status ≠ .WARN
    ∧ (validate_batch validators records entity).valid_records =
        records.countP (fun r => (validate_record validators r entity).1)
    ∧ (validate_batch validators records entity).invalid_records =
        records.countP (fun r => !(validate_record validators r entity).1)
    ∧ (validate_batch validators records entity).total_records = records.length
    ∧ (validate_batch validators records entity).validity_percentage =
        pyRound2 (((validate_batch validators records entity).valid_records : ℚ)
          / ((max records.length 1 : Nat) : ℚ) * 100)
    ∧ (validate_batch validators [] entity).validity_percentage = 0 := by
  have hc := foldl_batchStep_counts validators entity records 0 (0, 0, [])
  have henum : records.enum = records.enumFrom 0 := rfl
  have hvalid : (validate_batch validators records entity).valid_records =
      records.countP (fun r => (validate_record validators r entity).1) := by
    show (records.enum.foldl (batchStep validators entity) (0, 0, [])).1 = _
    rw [henum, hc.1]
    simp
  have hinvalid : (validate_batch validators records entity).invalid_records =
      records.countP (fun r => !(validate_record validators r entity).1) := by
    show (records.enum.foldl (batchStep validators entity) (0, 0, [])).2.1 = _
    rw [henum, hc.2]
    simp
  have hstat : (validate_batch validators records entity).status =
      (if (records.enum.foldl (batchStep validators entity) (0, 0, [])).2.1 == 0
       then Status.PASS else .FAIL) := rfl
  have h2 : (records.enum.foldl (batchStep validators entity) (0, 0, [])).2.1 =
      records.countP (fun r => !(validate_record validators r entity).1) := by
    rw [henum, hc.2]; simp
  have hempty : (validate_batch validators [] entity).validity_percentage = 0 := by
    have h : (validate_batch validators [] entity).validity_percentage
        = pyRound2 ((((0 : Nat)) : ℚ) / ((max (0 : Nat) 1 : Nat) : ℚ) * 100) := rfl
    rw [h]
    norm_num [pyRound2, roundHalfEven]
  refine ⟨?_, ?_, hvalid, hinvalid, rfl, ?_, hempty⟩
  · rw [hstat, h2]
    by_cases hz : records.countP (fun r => !(validate_record validators r entity).1) = 0
    · rw [hz]
      constructor
      · intro h
        simp at h
      · rintro ⟨r, hr, hf⟩
        have hpos : 0 < records.countP
            (fun r => !(validate_record validators r entity).1) :=
          List.countP_pos_iff.mpr ⟨r, hr, by simp [hf]⟩
        omega
    · have hne : (records.countP
          (fun r => !(validate_record validators r entity).1) == 0) = false := by
        simpa using hz
      rw [hne]
      have hpos : 0 < records.countP
          (fun r => !(validate_record validators r entity).1) :=
        Nat.pos_of_ne_zero hz
      rcases List.countP_pos_iff.mp hpos with ⟨r, hr, hp⟩
      simp only [Bool.false_eq_true, if_false]
      constructor
      · intro _
        exact ⟨r, hr, by simpa using hp⟩
      · intro _
        trivial
  · rw [hstat]
    split_ifs <;> decide
  · rw [hvalid]
    show pyRound2 (((records.enum.foldl (batchStep validators entity) (0, 0, [])).1 : ℚ)
        / ((max records.length 1 : Nat) : ℚ) * 100) = _
    rw [henum, hc.1]
    simp

/-- Concrete loaded validators for the C4 counterexample: a single
"customer" schema accepting exactly the record `[("ok", "1")]`. -/
def cexValidators : String → Option (Record → List String) :=
  fun e =>
    if e = "customer" then
      some (fun r => if r = [("ok", "1")] then [] else ["bad record"])
    else none

def cexRecords : List Record := [[("ok", "1")], [("bad", "2")], [("bad", "3")]]

/-- C4 counterexample: with 1 valid record out of 3, the code returns
`validity_percentage = 33.33` (rounded to two decimals), which differs from
the claimed exact value `valid_count / max(total, 1) * 100 = 100/3`. -/
theorem C4_counterexample :
    (validate_batch cexValidators cexRecords "customer").validity_percentage
      = 3333/100
    ∧ (validate_batch cexValidators cexRecords "customer").validity_percentage
      ≠ ((validate_batch cexValidators cexRecords "customer").valid_records : ℚ)
        / ((max (validate_batch cexValidators cexRecords "customer").total_records 1 : Nat) : ℚ)
        * 100 := by
  have hres : (cexRecords.enum.foldl (batchStep cexValidators "customer")
      (0, 0, [])).1 = 1 := by
    simp [cexRecords, List.enum, List.enumFrom, batchStep, validate_record,
      cexValidators]
  have hv : (validate_batch cexValidators cexRecords "customer").validity_percentage
      = pyRound2 (((cexRecords.enum.foldl (batchStep cexValidators "customer")
          (0, 0, [])).1 : ℚ) / ((max cexRecords.length 1 : Nat) : ℚ) * 100) := rfl
  have hvr : (validate_batch cexValidators cexRecords "customer").valid_records
      = (cexRecords.enum.foldl (batchStep cexValidators "customer") (0, 0, [])).1 :=
    rfl
  have htot : (validate_batch cexValidators cexRecords "customer").total_records
      = 3 := rfl
  rw [hv, hvr, hres, htot,
    show (max cexRecords.length 1 : Nat) = 3 from rfl,
    show (max 3 1 : Nat) = 3 from rfl]
  have hfl : ⌊(10000 / 3 : ℚ)⌋ = 3333 := by
    rw [Int.floor_eq_iff]
    norm_num
  have hpy : pyRound2 (((1 : Nat) : ℚ) / ((3 : Nat) : ℚ) * 100) = 3333 / 100 := by
    have harg : ((1 : Nat) : ℚ) / ((3 : Nat) : ℚ) * 100 * 100 = 10000 / 3 := by
      push_cast
      norm_num
    unfold pyRound2
    rw [harg]
    unfold roundHalfEven
    rw [hfl]
    norm_num
  rw [hpy]
  constructor
  · rfl
  · push_cast
    norm_num

/-- The key tuple of one row under `key_columns`: its cells in those
columns. -/
def keyTuple (df : DataFrame) (key_columns : List String)
    (row : List (Option ℚ)) : List (Option ℚ) :=
  key_columns.map (fun c =>
    match df.columns.findIdx? (· == c) with
    | some i => row.getD i none
    | none => none)

/-- `df.duplicated(subset=key_columns, keep="first")` over the key tuples:
a row is flagged iff an earlier row carries the same key tuple. -/
def duplicatedFlags (seen : List (List (Option ℚ))) :
    List (List (Option ℚ)) → List Bool
  | [] => []
  | k :: ks => decide (k ∈ seen) :: duplicatedFlags (seen ++ [k]) ks

/-- `duplicates.sum()` of `check_duplicates`. -/
def dupCount (df : DataFrame) (key_columns : List String) : Nat :=
  (duplicatedFlags [] (df.rows.map (keyTuple df key_columns))).count true

/-- `dup_pct` of `check_duplicates` (0 on an empty table). -/
def dupPct (df : DataFrame) (key_columns : List String) : ℚ :=
  if 0 < df.nrows then (dupCount df key_columns : ℚ) / (df.nrows : ℚ) * 100
  else 0

/-- The status assigned by `check_duplicates`. -/
def dupStatus (T : Thresholds) (df : DataFrame)
    (key_columns : List String) : Status :=
  if dupPct df key_columns > T.duplicate_percentage_max then .FAIL
  else if dupPct df key_columns > 0 then .WARN
  else .PASS

/-- `df[duplicates].head(5)[key_columns].to_dict("records")`. -/
def dupSamples (df : DataFrame) (key_columns : List String) :
    List (List (String × Option ℚ)) :=
  ((((df.rows.zip (duplicatedFlags []
        (df.rows.map (keyTuple df key_columns)))).filter
      (fun p => p.2)).map (fun p => p.1)).take 5).map
    (fun row => key_columns.map (fun c =>
      (c, match df.columns.findIdx? (· == c) with
          | some i => row.getD i none
          | none => none)))

/-- The result dict of `check_duplicates` (sample key omitted when the
count is zero, as in the source). -/
def dupResult (T : Thresholds) (df : DataFrame)
    (key_columns : List String) : DupResult :=
  { total_records := df.nrows,
    duplicate_count := dupCount df key_columns,
    duplicate_percentage := pyRound2 (dupPct df key_columns),
    threshold := T.duplicate_percentage_max,
    key_columns := key_columns,
    sample_duplicates :=
      if 0 < dupCount df key_columns then some (dupSamples df key_columns)
      else none }

/-- `DataQualityChecker.check_duplicates`. -/
def check_duplicates (T : Thresholds) (st : List CheckResult)
    (df : DataFrame) (key_columns : List String) :
    List CheckResult × CheckReturn :=
  (st ++ [{ check_name := "duplicate_check",
            status := dupStatus T df key_columns,
            details := .dups (dupResult T df key_columns) }],
   .withDetails (dupStatus T df key_columns)
     (.dups (dupResult T df key_columns)))

/-- The claim's duplicate count: the number of rows whose key tuple
already occurred in an earlier row — every occurrence after the first of
each key tuple, the first occurrence not counted. -/
def specDupCount (keys : List (List (Option ℚ))) : Nat :=
  keys.enum.countP (fun p => decide (p.2 ∈ keys.take p.1))

theorem duplicatedFlags_eq (ks : List (List (Option ℚ))) :
    ∀ (seen : List (List (Option ℚ))) (n : Nat),
    duplicatedFlags seen ks =
      (ks.enumFrom n).map (fun p => decide (p.2 ∈ seen ++ ks.take (p.1 - n))) := by
  induction ks with
  | nil => intro seen n; rfl
  | cons k ks ih =>
    intro seen n
    have h1 : (k :: ks).enumFrom n = (n, k) :: ks.enumFrom (n + 1) := rfl
    rw [h1, List.map_cons]
    have h2 : (decide (k ∈ seen ++ (k :: ks).take (n - n))) = decide (k ∈ seen) := by
      simp
    rw [duplicatedFlags, h2, ih (seen ++ [k]) (n + 1)]
    congr 1
    apply List.map_congr_left
    rintro ⟨i, a⟩ hmem
    have hle : n + 1 ≤ i :=
      (List.mk_mem_enumFrom_iff_le_and_getElem?_sub.mp hmem).1
    have htake : (k :: ks).take (i - n) = k :: ks.take (i - (n + 1)) := by
      have : i - n = (i - (n + 1)) + 1 := by omega
      rw [this, List.take_succ_cons]
    simp only [htake, List.append_assoc, List.singleton_append,
      List.cons_append, List.nil_append]

theorem dupCount_eq_specDupCount (df : DataFrame) (key_columns : List String) :
    dupCount df key_columns =
      specDupCount (df.rows.map (keyTuple df key_columns)) := by
  unfold dupCount specDupCount
  rw [duplicatedFlags_eq _ [] 0]
  have henum : (df.rows.map (keyTuple df key_columns)).enum =
      (df.rows.map (keyTuple df key_columns)).enumFrom 0 := rfl
  rw [← henum]
  rw [List.count_eq_countP, List.countP_map]
  apply List.countP_congr
  rintro ⟨i, a⟩ hmem
  simp [Function.comp]

theorem duplicatedFlags_length (ks seen : List (List (Option ℚ))) :
    (duplicatedFlags seen ks).length = ks.length := by
  induction ks generalizing seen with
  | nil => rfl
  | cons k ks ih => simp [duplicatedFlags, ih]

theorem dupCount_le_nrows (df : DataFrame) (key_columns : List String) :
    dupCount df key_columns ≤ df.nrows := by
  unfold dupCount
  calc (duplicatedFlags [] (df.rows.map (keyTuple df key_columns))).count true
      ≤ (duplicatedFlags [] (df.rows.map (keyTuple df key_columns))).length :=
        List.count_le_length _ _
    _ = (df.rows.map (keyTuple df key_columns)).length :=
        duplicatedFlags_length _ _
    _ = df.nrows := by simp [DataFrame.nrows]

/-- C5: with at least one duplicate (d ≥ 1 rows that repeat an earlier
key tuple) under key columns present in the table, `check_duplicates`
reports `duplicate_count` exactly d — counting every occurrence after the
first of each key tuple, the first occurrence as non-duplicate — and its
status is FAIL iff the duplicate percentage exceeds the threshold, WARN
iff it is strictly positive but within it, and PASS iff it is zero. -/
theorem C5_check_duplicates (T : Thresholds) (st : List CheckResult)
    (df : DataFrame) (key_columns : List String)
    (hK : ∀ c ∈ key_columns, c ∈ df.columns)
    (hd : 1 ≤ specDupCount (df.rows.map (keyTuple df key_columns))) :
    (dupResult T df key_columns).duplicate_count
        = specDupCount (df.rows.map (keyTuple df key_columns))
    ∧ ((check_duplicates T st df key_columns).2.status = .FAIL ↔
        (specDupCount (df.rows.map (keyTuple df key_columns)) : ℚ)
          / (df.nrows : ℚ) * 100 > T.duplicate_percentage_max)
    ∧ ((check_duplicates T st df key_columns).2.status = .WARN ↔
        0 < (specDupCount (df.rows.map (keyTuple df key_columns)) : ℚ)
          / (df.nrows : ℚ) * 100
        ∧ (specDupCount (df.rows.map (keyTuple df key_columns)) : ℚ)
          / (df.nrows : ℚ) * 100 ≤ T.duplicate_percentage_max)
    ∧ ((check_duplicates T st df key_columns).2.status = .PASS ↔
        (specDupCount (df.rows.map (keyTuple df key_columns)) : ℚ)
          / (df.nrows : ℚ) * 100 = 0) := by
  have hdc := dupCount_eq_specDupCount df key_columns
  have hd' : 1 ≤ dupCount df key_columns := by rw [hdc]; exact hd
  have hpos_n : 0 < df.nrows := by
    have hle := dupCount_le_nrows df key_columns
    omega
  set q : ℚ := (specDupCount (df.rows.map (keyTuple df key_columns)) : ℚ)
      / (df.nrows : ℚ) * 100 with hqdef
  have hq : dupPct df key_columns = q := by
    unfold dupPct
    rw [if_pos hpos_n, hdc, hqdef]
  have hqpos : 0 < q := by
    rw [hqdef]
    have h1 : (0 : ℚ) < (specDupCount (df.rows.map (keyTuple df key_columns)) : ℚ) := by
      exact_mod_cast hd
    have h2 : (0 : ℚ) < (df.nrows : ℚ) := by exact_mod_cast hpos_n
    have := div_pos h1 h2
    linarith
  have hret : (check_duplicates T st df key_columns).2.status =
      dupStatus T df key_columns := rfl
  have hds : dupStatus T df key_columns =
      (if q > T.duplicate_percentage_max then Status.FAIL
       else if q > 0 then .WARN else .PASS) := by
    unfold dupStatus
    rw [hq]
  refine ⟨hdc, ?_, ?_, ?_⟩
  · rw [hret, hds]
    by_cases h1 : q > T.duplicate_percentage_max
    · rw [if_pos h1]; simp [h1]
    · rw [if_neg h1, if_pos hqpos]; simp [h1]
  · rw [hret, hds]
    by_cases h1 : q > T.duplicate_percentage_max
    · rw [if_pos h1]
      constructor
      · intro h; exact absurd h (by decide)
      · rintro ⟨-, hle⟩; exact absurd h1 (not_lt.mpr hle)
    · rw [if_neg h1, if_pos hqpos]
      simp [hqpos, not_lt.mp h1]
  · rw [hret, hds]
    by_cases h1 : q > T.duplicate_percentage_max
    · rw [if_pos h1]
      constructor
      · intro h; exact absurd h (by decide)
      · intro h0; exact absurd (h0 ▸ hqpos) (lt_irrefl 0)
    · rw [if_neg h1, if_pos hqpos]
      constructor
      · intro h; exact absurd h (by decide)
      · intro h0; exact absurd (h0 ▸ hqpos) (lt_irrefl 0)

/-- A two-row table whose rows share the key value, for the C5 witness. -/
def dfDup : DataFrame := { columns := ["id"], rows := [[some 1], [some 1]] }

theorem C5_witness :
    (dupResult defaultThresholds dfDup ["id"]).duplicate_count
      = specDupCount (dfDup.rows.map (keyTuple dfDup ["id"])) :=
  (C5_check_duplicates defaultThresholds [] dfDup ["id"]
    (by decide) (by decide)).1

/-- C10: on an empty table (zero rows) `check_duplicates` returns PASS
with `duplicate_count` 0 and `duplicate_percentage` 0, the percentage
division being guarded at zero rows (thresholds satisfying the documented
non-negativity invariant). -/
theorem C10_check_duplicates_empty (T : Thresholds) (st : List CheckResult)
    (df : DataFrame) (key_columns : List String)
    (hmax : 0 ≤ T.duplicate_percentage_max) (hrows : df.rows = []) :
    (check_duplicates T st df key_columns).2.status = .PASS
    ∧ (dupResult T df key_columns).duplicate_count = 0
    ∧ (dupResult T df key_columns).duplicate_percentage = 0
    ∧ dupPct df key_columns = 0 := by
  have hn : df.nrows = 0 := by simp [DataFrame.nrows, hrows]
  have hc : dupCount df key_columns = 0 := by
    unfold dupCount
    rw [hrows]
    rfl
  have hp : dupPct df key_columns = 0 := by
    unfold dupPct
    rw [hn]
    simp
  refine ⟨?_, hc, ?_, hp⟩
  · show dupStatus T df key_columns = .PASS
    unfold dupStatus
    rw [hp, if_neg (not_lt.mpr hmax), if_neg (by norm_num)]
  · show pyRound2 (dupPct df key_columns) = 0
    rw [hp]
    norm_num [pyRound2, roundHalfEven]

/-- An empty table, for the C10 witness. -/
def dfEmpty : DataFrame := { columns := ["id"], rows := [] }

theorem C10_witness :
    (check_duplicates defaultThresholds [] dfEmpty ["id"]).2.status = .PASS :=
  (C10_check_duplicates_empty defaultThresholds [] dfEmpty ["id"]
    zero_le_one rfl).1

/-- `expected_min or self.thresholds.get("min_row_count", 0)`: a `None`
or zero `expected_min` falls back to the configured minimum (0 is falsy in
Python). -/
def rowMinCount (T : Thresholds) (expected_min : Option ℤ) : ℤ :=
  match expected_min with
  | some m => if m ≠ 0 then m else T.min_row_count
  | none => T.min_row_count

/-- Status after the two bound checks of `check_row_count`
(`if expected_max and actual_count > expected_max`: 0 is falsy). -/
def rowCountBoundsStatus (T : Thresholds) (df : DataFrame)
    (expected_min expected_max : Option ℤ) : Status :=
  let actual_count : ℤ := (df.nrows : ℤ)
  let s1 : Status :=
    if actual_count < rowMinCount T expected_min then .FAIL else .PASS
  match expected_max with
  | some M => if M ≠ 0 ∧ actual_count > M then .FAIL else s1
  | none => s1

/-- Final status of `check_row_count`
(`if previous_count and previous_count > 0` then the variance check may
downgrade PASS to WARN, never overriding FAIL). -/
def rowCountStatus (T : Thresholds) (df : DataFrame)
    (expected_min expected_max previous_count : Option ℤ)
    (variance_threshold_pct : ℚ) : Status :=
  let s2 := rowCountBoundsStatus T df expected_min expected_max
  match previous_count with
  | some p =>
    if p ≠ 0 ∧ 0 < p then
      if |((df.nrows : ℤ) : ℚ) - (p : ℚ)| / (p : ℚ) * 100
          > variance_threshold_pct then
        (if s2 = .PASS then .WARN else s2)
      else s2
    else s2
  | none => s2

/-- The ordered issue list of `check_row_count` (messages hold the values
unformatted; the source's `:.1f` float formatting is presentational). -/
def rowCountIssues (T : Thresholds) (df : DataFrame)
    (expected_min expected_max previous_count : Option ℤ)
    (variance_threshold_pct : ℚ) : List String :=
  let actual_count : ℤ := (df.nrows : ℤ)
  let min_count := rowMinCount T expected_min
  let i1 : List String :=
    if actual_count < min_count then
      [s!"Row count {actual_count} below minimum {min_count}"]
    else []
  let i2 : List String :=
    match expected_max with
    | some M =>
      if M ≠ 0 ∧ actual_count > M then
        i1 ++ [s!"Row count {actual_count} exceeds maximum {M}"]
      else i1
    | none => i1
  match previous_count with
  | some p =>
    if p ≠ 0 ∧ 0 < p then
      let variance := |(actual_count : ℚ) - (p : ℚ)| / (p : ℚ) * 100
      if variance > variance_threshold_pct then
        i2 ++ [s!"Row count variance {variance}% exceeds threshold {variance_threshold_pct}%"]
      else i2
    else i2
  | none => i2

/-- `DataQualityChecker.check_row_count`. -/
def check_row_count (T : Thresholds) (st : List CheckResult) (df : DataFrame)
    (expected_min expected_max previous_count : Option ℤ)
    (variance_threshold_pct : ℚ) : List CheckResult × CheckReturn :=
  let status := rowCountStatus T df expected_min expected_max previous_count
      variance_threshold_pct
  let result : RowCountResult :=
    { actual_count := df.nrows,
      expected_min := rowMinCount T expected_min,
      expected_max := expected_max,
      previous_count := previous_count,
      issues := rowCountIssues T df expected_min expected_max previous_count
        variance_threshold_pct }
  (st ++ [{ check_name := "row_count_check", status := status,
            details := .rowCount result }],
   .withDetails status (.rowCount result))

theorem downgrade_eq_FAIL (s : Status) :
    (if s = .PASS then Status.WARN else s) = .FAIL ↔ s = .FAIL := by
  cases s <;> simp

theorem rowCountBoundsStatus_eq_FAIL (T : Thresholds) (df : DataFrame)
    (expected_min expected_max : Option ℤ) :
    rowCountBoundsStatus T df expected_min expected_max = .FAIL ↔
      ((df.nrows : ℤ) < rowMinCount T expected_min
       ∨ ∃ M, expected_max = some M ∧ M ≠ 0 ∧ (df.nrows : ℤ) > M) := by
  unfold rowCountBoundsStatus
  rcases expected_max with _ | M
  · by_cases hmin : (df.nrows : ℤ) < rowMinCount T expected_min <;>
      simp [hmin]
  · by_cases hM : M ≠ 0 ∧ (df.nrows : ℤ) > M <;>
      by_cases hmin : (df.nrows : ℤ) < rowMinCount T expected_min <;>
      simp [hmin, hM]

theorem rowCountStatus_eq_FAIL (T : Thresholds) (df : DataFrame)
    (expected_min expected_max previous_count : Option ℤ)
    (variance_threshold_pct : ℚ) :
    rowCountStatus T df expected_min expected_max previous_count
        variance_threshold_pct = .FAIL ↔
      ((df.nrows : ℤ) < rowMinCount T expected_min
       ∨ ∃ M, expected_max = some M ∧ M ≠ 0 ∧ (df.nrows : ℤ) > M) := by
  rw [← rowCountBoundsStatus_eq_FAIL T df expected_min expected_max]
  rcases previous_count with _ | p
  · rfl
  · show (if p ≠ 0 ∧ 0 < p then
        if |((df.nrows : ℤ) : ℚ) - (p : ℚ)| / (p : ℚ) * 100
            > variance_threshold_pct then
          (if rowCountBoundsStatus T df expected_min expected_max = .PASS
           then Status.WARN
           else rowCountBoundsStatus T df expected_min expected_max)
        else rowCountBoundsStatus T df expected_min expected_max
      else rowCountBoundsStatus T df expected_min expected_max) = .FAIL ↔ _
    by_cases h1 : p ≠ 0 ∧ 0 < p
    · rw [if_pos h1]
      by_cases h2 : |((df.nrows : ℤ) : ℚ) - (p : ℚ)| / (p : ℚ) * 100
          > variance_threshold_pct
      · rw [if_pos h2]
        exact downgrade_eq_FAIL _
      · rw [if_neg h2]
    · rw [if_neg h1]

theorem rowCountStatus_variance_ne_PASS (T : Thresholds) (df : DataFrame)
    (expected_min expected_max : Option ℤ) (p : ℤ)
    (variance_threshold_pct : ℚ) (hp : 0 < p)
    (hvar : |((df.nrows : ℤ) : ℚ) - (p : ℚ)| / (p : ℚ) * 100
      > variance_threshold_pct) :
    rowCountStatus T df expected_min expected_max (some p)
      variance_threshold_pct ≠ .PASS := by
  show (if p ≠ 0 ∧ 0 < p then
      if |((df.nrows : ℤ) : ℚ) - (p : ℚ)| / (p : ℚ) * 100
          > variance_threshold_pct then
        (if rowCountBoundsStatus T df expected_min expected_max = .PASS
         then Status.WARN
         else rowCountBoundsStatus T df expected_min expected_max)
      else rowCountBoundsStatus T df expected_min expected_max
    else rowCountBoundsStatus T df expected_min expected_max) ≠ .PASS
  rw [if_pos ⟨by omega, hp⟩, if_pos hvar]
  cases rowCountBoundsStatus T df expected_min expected_max <;> simp

/-- C7 (amended): `check_row_count` returns FAIL iff the row count is
below the effective minimum — `expected_min` when supplied and nonzero,
else the configured `min_row_count` — or above `expected_max` when that is
supplied and nonzero; a supplied positive `previous_count` with variance
above the threshold forces the status away from PASS without ever causing
FAIL by itself; a 2-row table with `expected_min = 100` fails and a
150-row table with no max or previous count passes. -/
theorem C7_check_row_count_amended (T : Thresholds) (st : List CheckResult)
    (df df2 df150 : DataFrame)
    (expected_min expected_max previous_count : Option ℤ)
    (variance_threshold_pct : ℚ)
    (h2 : df2.nrows = 2) (h150 : df150.nrows = 150) :
    ((check_row_count T st df expected_min expected_max previous_count
        variance_threshold_pct).2.status = .FAIL ↔
      ((df.nrows : ℤ) < rowMinCount T expected_min
       ∨ ∃ M, expected_max = some M ∧ M ≠ 0 ∧ (df.nrows : ℤ) > M))
    ∧ (∀ p, previous_count = some p → 0 < p →
        |((df.nrows : ℤ) : ℚ) - (p : ℚ)| / (p : ℚ) * 100
            > variance_threshold_pct →
        (check_row_count T st df expected_min expected_max previous_count
          variance_threshold_pct).2.status ≠ .PASS)
    ∧ (check_row_count T st df2 (some 100) none none 50).2.status = .FAIL
    ∧ (check_row_count T st df150 (some 100) none none 50).2.status = .PASS := by
  have hret : ∀ (df' : DataFrame) em eM pc vt,
      (check_row_count T st df' em eM pc vt).2.status =
        rowCountStatus T df' em eM pc vt := fun _ _ _ _ _ => rfl
  refine ⟨?_, ?_, ?_, ?_⟩
  · rw [hret]
    exact rowCountStatus_eq_FAIL T df expected_min expected_max
      previous_count variance_threshold_pct
  · rintro p rfl hp hvar
    rw [hret]
    exact rowCountStatus_variance_ne_PASS T df expected_min expected_max p
      variance_threshold_pct hp hvar
  · rw [hret]
    unfold rowCountStatus rowCountBoundsStatus rowMinCount
    rw [h2]
    norm_num
  · rw [hret]
    unfold rowCountStatus rowCountBoundsStatus rowMinCount
    rw [h150]
    norm_num

/-- A five-row table. -/
def df5 : DataFrame := { columns := ["a"], rows := List.replicate 5 [] }

/-- C7 counterexample: with the default configured minimum of 100, calling
`check_row_count` on a 5-row table with an explicit `expected_min = 0`
returns FAIL, although the row count 5 is not below the requested minimum
0 and no other bound is given — the claim predicts PASS. -/
theorem C7_counterexample :
    (check_row_count defaultThresholds [] df5 (some 0) none none
        50).2.status = .FAIL
    ∧ ¬((df5.nrows : ℤ) < 0) := by
  constructor
  · decide
  · decide

/-- A two-row table. -/
def df2c : DataFrame := { columns := ["a"], rows := [[], []] }

/-- A 150-row table. -/
def df150c : DataFrame := { columns := ["a"], rows := List.replicate 150 [] }

theorem C7_witness :
    (check_row_count defaultThresholds [] df2c (some 100) none (some 1)
        50).2.status ≠ .PASS := by
  have h := (C7_check_row_count_amended defaultThresholds [] df2c df2c df150c
    (some 100) none (some 1) 50 rfl (by simp [df150c, DataFrame.nrows])).2.1
  exact h 1 rfl (by norm_num)
    (by norm_num [df2c, DataFrame.nrows])

/-- C9: an explicit `expected_min = 0` is falsy in
`expected_min or self.thresholds.get("min_row_count", 0)`, so the call
behaves identically to omitting `expected_min`, and a table below the
configured minimum fails even though the caller asked for minimum 0. -/
theorem C9_check_row_count_min_zero (T : Thresholds) (st : List CheckResult)
    (df : DataFrame) (expected_max previous_count : Option ℤ)
    (variance_threshold_pct : ℚ) :
    check_row_count T st df (some 0) expected_max previous_count
        variance_threshold_pct
      = check_row_count T st df none expected_max previous_count
        variance_threshold_pct
    ∧ ((df.nrows : ℤ) < T.min_row_count →
        (check_row_count T st df (some 0) expected_max previous_count
          variance_threshold_pct).2.status = .FAIL) := by
  have hmin : rowMinCount T (some 0) = rowMinCount T none := by
    unfold rowMinCount
    simp
  constructor
  · unfold check_row_count rowCountStatus rowCountBoundsStatus rowCountIssues
    rw [hmin]
  · intro hlt
    have hs : (check_row_count T st df (some 0) expected_max previous_count
        variance_threshold_pct).2.status =
        rowCountStatus T df (some 0) expected_max previous_count
          variance_threshold_pct := rfl
    rw [hs, rowCountStatus_eq_FAIL]
    left
    have h0 : rowMinCount T (some 0) = T.min_row_count := by
      unfold rowMinCount
      simp
    rw [h0]
    exact hlt

theorem C9_witness :
    (check_row_count defaultThresholds [] df5 (some 0) none none
        50).2.status = .FAIL :=
  (C9_check_row_count_min_zero defaultThresholds [] df5 none none 50).2
    (by decide)

/-- `pandas` max over a column, skipping nulls; `none` (NaT) when all
values are null. -/
def listMaxOpt (l : List (Option ℚ)) : Option ℚ :=
  l.foldl (fun acc v =>
    match acc, v with
    | none, w => w
    | some a, none => some a
    | some a, some b => some (max a b)) none

/-- `pandas` min over a column, skipping nulls. -/
def listMinOpt (l : List (Option ℚ)) : Option ℚ :=
  l.foldl (fun acc v =>
    match acc, v with
    | none, w => w
    | some a, none => some a
    | some a, some b => some (min a b)) none

/-- The accumulated result and returned value computed by
`check_freshness`; `now` is the wall clock in hours and `parse` models
`pd.to_datetime` on the column's cells: it either raises (`.error`
carrying the exception text, caught by the `except` block) or yields
optional timestamps in hours. -/
def freshnessOutcome (T : Thresholds) (now : ℚ)
    (parse : List (Option ℚ) → Except String (List (Option ℚ)))
    (df : DataFrame) (timestamp_column : String) :
    CheckResult × CheckReturn :=
  if timestamp_column ∉ df.columns then
    ({ check_name := "freshness_check", status := .FAIL,
       details := .freshMissing .FAIL
         s!"Column {timestamp_column} not found" },
     .bare .FAIL s!"Column {timestamp_column} not found")
  else
    match parse (df.colValues timestamp_column) with
    | .error e =>
      ({ check_name := "freshness_check", status := .FAIL,
         details := .freshError e },
       .withDetails .FAIL (.freshError e))
    | .ok ts =>
      match listMaxOpt ts with
      | none =>
        ({ check_name := "freshness_check", status := .FAIL,
           details := .fresh
             { latest_timestamp := none, hours_since_latest := none,
               threshold_hours := T.freshness_hours_max } },
         .withDetails .FAIL (.fresh
           { latest_timestamp := none, hours_since_latest := none,
             threshold_hours := T.freshness_hours_max }))
      | some latest =>
        let hours_old := now - latest
        let status : Status :=
          if hours_old > T.freshness_hours_max then .WARN else .PASS
        let details := Details.fresh
          { latest_timestamp := some latest,
            hours_since_latest :=
              if hours_old ≠ 0 then some (pyRound2 hours_old) else none,
            threshold_hours := T.freshness_hours_max }
        ({ check_name := "freshness_check", status := status,
           details := details },
         .withDetails status details)

/-- `DataQualityChecker.check_freshness`: appends the computed result and
returns the computed value. -/
def check_freshness (T : Thresholds) (now : ℚ)
    (parse : List (Option ℚ) → Except String (List (Option ℚ)))
    (st : List CheckResult) (df : DataFrame) (timestamp_column : String) :
    List CheckResult × CheckReturn :=
  (st ++ [(freshnessOutcome T now parse df timestamp_column).1],
   (freshnessOutcome T now parse df timestamp_column).2)

/-- C8: `check_freshness` fails when the column is missing or all parsed
values are null, and when the parse raises the exception is caught and
returned as a FAIL result carrying the error text; otherwise the status is
WARN iff the age of the newest timestamp exceeds the threshold and PASS
otherwise — never FAIL for staleness. -/
theorem C8_check_freshness (T : Thresholds) (now : ℚ)
    (parse : List (Option ℚ) → Except String (List (Option ℚ)))
    (st : List CheckResult) (df : DataFrame) (timestamp_column : String) :
    (timestamp_column ∉ df.columns →
      (check_freshness T now parse st df timestamp_column).2.status = .FAIL)
    ∧ (∀ e, timestamp_column ∈ df.columns →
        parse (df.colValues timestamp_column) = .error e →
        (check_freshness T now parse st df timestamp_column).2
          = .withDetails .FAIL (.freshError e))
    ∧ (∀ ts, timestamp_column ∈ df.columns →
        parse (df.colValues timestamp_column) = .ok ts →
        listMaxOpt ts = none →
        (check_freshness T now parse st df timestamp_column).2.status = .FAIL)
    ∧ (∀ ts latest, timestamp_column ∈ df.columns →
        parse (df.colValues timestamp_column) = .ok ts →
        listMaxOpt ts = some latest →
        ((check_freshness T now parse st df timestamp_column).2.status = .WARN
            ↔ now - latest > T.freshness_hours_max)
        ∧ ((check_freshness T now parse st df timestamp_column).2.status = .PASS
            ↔ ¬(now - latest > T.freshness_hours_max))
        ∧ (check_freshness T now parse st df timestamp_column).2.status
            ≠ .FAIL) := by
  refine ⟨?_, ?_, ?_, ?_⟩
  · intro hmiss
    unfold check_freshness freshnessOutcome
    rw [if_pos hmiss]
    rfl
  · intro e hmem hparse
    unfold check_freshness freshnessOutcome
    rw [if_neg (fun hc => hc hmem), hparse]
  · intro ts hmem hparse hmax
    unfold check_freshness freshnessOutcome
    rw [if_neg (fun hc => hc hmem), hparse]
    simp only [hmax]
    rfl
  · intro ts latest hmem hparse hmax
    have hval : (check_freshness T now parse st df timestamp_column).2.status =
        (if now - latest > T.freshness_hours_max then Status.WARN
         else .PASS) := by
      unfold check_freshness freshnessOutcome
      rw [if_neg (fun hc => hc hmem), hparse]
      simp only [hmax]
      rfl
    refine ⟨?_, ?_, ?_⟩
    · rw [hval]
      by_cases h : now - latest > T.freshness_hours_max <;> simp [h]
    · rw [hval]
      by_cases h : now - latest > T.freshness_hours_max <;> simp [h]
    · rw [hval]
      by_cases h : now - latest > T.freshness_hours_max <;> simp [h]

/-- A one-row table with a timestamp column at hour 0. -/
def dfTs : DataFrame := { columns := ["ts"], rows := [[some 0]] }

theorem C8_witness :
    (check_freshness defaultThresholds 10 (fun l => Except.ok l) [] dfTs
        "ts").2.status = .WARN := by
  have h := ((C8_check_freshness defaultThresholds 10 (fun l => Except.ok l)
      [] dfTs "ts").2.2.2 [some 0] 0 (by decide) rfl rfl).1
  exact h.mpr (by norm_num [defaultThresholds])

/-- `float(df[col].min()) if not df[col].empty else None`; the NaN a
non-empty all-null column would produce is modelled as `none`. -/
def colMinOpt (df : DataFrame) (col : String) : Option ℚ :=
  if df.nrows = 0 then none else listMinOpt (df.colValues col)

/-- `float(df[col].max()) if not df[col].empty else None`. -/
def colMaxOpt (df : DataFrame) (col : String) : Option ℚ :=
  if df.nrows = 0 then none else listMaxOpt (df.colValues col)

/-- Rows of `col` violating the rule (`df[col] < min` / `df[col] > max`;
comparisons against a null cell are False in pandas, so nulls never
violate). -/
def rangeViolations (df : DataFrame) (col : String) (rule : RangeRule) : Nat :=
  (df.colValues col).countP (fun v =>
    match v with
    | none => false
    | some x =>
      (match rule.min with
       | some m => decide (x < m)
       | none => false)
      || (match rule.max with
          | some M => decide (x > M)
          | none => false))

/-- Loop body of `check_ranges`, threading
`(range_report, overall_status)`. -/
def rangesStep (df : DataFrame)
    (acc : List (String × RangeColReport) × Status)
    (p : String × RangeRule) : List (String × RangeColReport) × Status :=
  if p.1 ∈ df.columns then
    let violation_count := rangeViolations df p.1 p.2
    let violation_pct : ℚ :=
      if 0 < df.nrows then (violation_count : ℚ) / (df.nrows : ℚ) * 100
      else 0
    let status : Status := if violation_count > 0 then .FAIL else .PASS
    let overall : Status := if status = .FAIL then .FAIL else acc.2
    (acc.1 ++ [(p.1, .counted
        { expected_range := p.2, violations := violation_count,
          violation_percentage := pyRound2 violation_pct,
          actual_min := colMinOpt df p.1, actual_max := colMaxOpt df p.1,
          status := status })], overall)
  else
    (acc.1 ++ [(p.1, .missing .FAIL "Column missing")], .FAIL)

/-- `DataQualityChecker.check_ranges` (the thresholds are not consulted by
this check). -/
def check_ranges (st : List CheckResult) (df : DataFrame)
    (range_rules : List (String × RangeRule)) :
    List CheckResult × CheckReturn :=
  let res := range_rules.foldl (rangesStep df) ([], .PASS)
  (st ++ [{ check_name := "range_check", status := res.2,
            details := .ranges range_rules.length res.1 }],
   .withDetails res.2 (.rangesReport res.1))

/-- `DataQualityChecker.check_referential_integrity`; the reference set is
carried as a list, deduplicated where Python's `set` semantics matter. -/
def check_referential_integrity (st : List CheckResult) (df : DataFrame)
    (column : String) (reference_values : List ℚ) :
    List CheckResult × CheckReturn :=
  if column ∉ df.columns then
    (st ++ [{ check_name := "referential_integrity", status := .FAIL,
              details := .refMissing .FAIL
                s!"Column {column} not found" }],
     .bare .FAIL s!"Column {column} not found")
  else
    let actual_values := ((df.colValues column).filterMap id).dedup
    let orphaned := actual_values.filter
      (fun v => !(reference_values.contains v))
    let orphan_count := orphaned.length
    let status : Status := if orphan_count > 0 then .FAIL else .PASS
    let result : RefResult :=
      { column := column,
        total_unique_values := actual_values.length,
        reference_set_size := reference_values.dedup.length,
        orphaned_count := orphan_count,
        sample_orphans := orphaned.take 10 }
    (st ++ [{ check_name := "referential_integrity", status := status,
              details := .ref result }],
     .withDetails status (.ref result))

theorem check_freshness_appends (T : Thresholds) (now : ℚ)
    (parse : List (Option ℚ) → Except String (List (Option ℚ)))
    (st : List CheckResult) (df : DataFrame) (col : String) :
    ∃ r, (check_freshness T now parse st df col).1 = st ++ [r] :=
  ⟨(freshnessOutcome T now parse df col).1, rfl⟩

theorem check_freshness_shape (T : Thresholds) (now : ℚ)
    (parse : List (Option ℚ) → Except String (List (Option ℚ)))
    (st : List CheckResult) (df : DataFrame) (col : String) :
    ((check_freshness T now parse st df col).2.hasDetails = true ↔
      col ∈ df.columns) := by
  show ((freshnessOutcome T now parse df col).2.hasDetails = true ↔
    col ∈ df.columns)
  unfold freshnessOutcome
  by_cases hm : col ∉ df.columns
  · rw [if_pos hm]
    simp [CheckReturn.hasDetails, hm]
  · rw [if_neg hm]
    have hmem : col ∈ df.columns := not_not.mp hm
    rcases hp : parse (df.colValues col) with e | ts
    · simp [CheckReturn.hasDetails, hmem]
    · rcases hq : listMaxOpt ts with _ | latest <;>
        simp [CheckReturn.hasDetails, hmem, hq]

theorem check_ref_appends (st : List CheckResult) (df : DataFrame)
    (column : String) (reference_values : List ℚ) :
    ∃ r, (check_referential_integrity st df column reference_values).1
      = st ++ [r] := by
  unfold check_referential_integrity
  by_cases hm : column ∉ df.columns
  · rw [if_pos hm]
    exact ⟨_, rfl⟩
  · rw [if_neg hm]
    exact ⟨_, rfl⟩

theorem check_ref_shape (st : List CheckResult) (df : DataFrame)
    (column : String) (reference_values : List ℚ) :
    ((check_referential_integrity st df column
        reference_values).2.hasDetails = true ↔ column ∈ df.columns) := by
  unfold check_referential_integrity
  by_cases hm : column ∉ df.columns
  · rw [if_pos hm]
    simp [CheckReturn.hasDetails, hm]
  · rw [if_neg hm]
    have hmem : column ∈ df.columns := not_not.mp hm
    simp [CheckReturn.hasDetails, hmem]

/-- C6 (amended): every check operation appends exactly one CheckResult to
the accumulated result list, which is otherwise unmodified; the returned
value has the `{status, details}` shape for all checks except the
missing-column early returns of `check_freshness` and
`check_referential_integrity`, which return their bare
`{status, reason}` result dict instead. -/
theorem C6_checks_append_one_amended (T : Thresholds) (st : List CheckResult)
    (df : DataFrame) (now : ℚ)
    (parse : List (Option ℚ) → Except String (List (Option ℚ)))
    (required_columns key_columns : List String)
    (range_rules : List (String × RangeRule))
    (expected_min expected_max previous_count : Option ℤ)
    (variance_threshold_pct : ℚ) (timestamp_column column : String)
    (reference_values : List ℚ) :
    (∃ r, (check_nulls T st df required_columns).1 = st ++ [r])
    ∧ (check_nulls T st df required_columns).2.hasDetails = true
    ∧ (∃ r, (check_duplicates T st df key_columns).1 = st ++ [r])
    ∧ (check_duplicates T st df key_columns).2.hasDetails = true
    ∧ (∃ r, (check_ranges st df range_rules).1 = st ++ [r])
    ∧ (check_ranges st df range_rules).2.hasDetails = true
    ∧ (∃ r, (check_row_count T st df expected_min expected_max
        previous_count variance_threshold_pct).1 = st ++ [r])
    ∧ (check_row_count T st df expected_min expected_max previous_count
        variance_threshold_pct).2.hasDetails = true
    ∧ (∃ r, (check_freshness T now parse st df timestamp_column).1
        = st ++ [r])
    ∧ ((check_freshness T now parse st df timestamp_column).2.hasDetails
        = true ↔ timestamp_column ∈ df.columns)
    ∧ (∃ r, (check_referential_integrity st df column reference_values).1
        = st ++ [r])
    ∧ ((check_referential_integrity st df column
        reference_values).2.hasDetails = true ↔ column ∈ df.columns) :=
  ⟨⟨_, rfl⟩, rfl, ⟨_, rfl⟩, rfl, ⟨_, rfl⟩, rfl, ⟨_, rfl⟩, rfl,
   check_freshness_appends T now parse st df timestamp_column,
   check_freshness_shape T now parse st df timestamp_column,
   check_ref_appends st df column reference_values,
   check_ref_shape st df column reference_values⟩

/-- A table without the requested timestamp column. -/
def dfNoTs : DataFrame := { columns := ["a"], rows := [[some 1]] }

/-- C6 counterexample: `check_freshness` on a table missing the timestamp
column returns the bare `{status, reason}` dict — a value without the
claimed `{status, details}` shape (status is still FAIL). -/
theorem C6_counterexample :
    (check_freshness defaultThresholds 0 (fun l => Except.ok l) [] dfNoTs
        "ts").2.hasDetails = false
    ∧ (check_freshness defaultThresholds 0 (fun l => Except.ok l) [] dfNoTs
        "ts").2.status = .FAIL := by
  constructor <;> rfl

end C360
